import Mathlib

/-!
Verification of the OptiCode backend (app.py + database.py).

The MongoDB collections are embedded as Lean lists of documents; the
pymongo primitives used by the source (`find_one`, `delete_one`,
`update_one` with a `$set`, `insert_one`, and the single aggregation
pipeline) are embedded as executable functions over those lists, keeping
pymongo result semantics (`deleted_count`, `matched_count`,
`modified_count` — a `$set` writing values identical to the stored ones
reports `modified_count = 0`).  Python string normalization `.strip()`
and `.lower()` are embedded as `pyStrip` and `pyLower` over the
character list of a string.  Timestamps are naturals, document ids are
naturals, JSON/HTTP responses are `Except ErrResponse` values carrying
the message text and HTTP status of the source.
-/

/-- Python `str.strip()` helper: drop leading whitespace characters. -/
def dropWhitespace : List Char → List Char
  | [] => []
  | c :: cs => if c.isWhitespace then dropWhitespace cs else c :: cs

/-- Python `str.strip()`: remove leading and trailing whitespace. -/
def pyStrip (s : String) : String :=
  ⟨(dropWhitespace (dropWhitespace s.data).reverse).reverse⟩

/-- Python `str.lower()`: lowercase every character. -/
def pyLower (s : String) : String :=
  ⟨s.data.map Char.toLower⟩

/-- Modelled from the spec (CredentialService, bcrypt is an external
library whose internals are not in the repository): a bcrypt hash is the
non-reversible image of its input password under a per-call random salt.
`verify(password, hash)` is true iff `password` was the input that
produced `hash`; the salt makes repeated hashing of the same plaintext
produce different hash values. -/
structure BcryptHash where
  input : String
  salt : Nat
  deriving DecidableEq, Repr

/-- Modelled from the spec: `bcrypt.hashpw(password, gensalt())`. -/
def hashpw (password : String) (salt : Nat) : BcryptHash :=
  ⟨password, salt⟩

/-- Modelled from the spec: `bcrypt.checkpw(password, stored)` succeeds
exactly when `password` is the plaintext that produced `stored`. -/
def checkpw (password : String) (stored : BcryptHash) : Bool :=
  password == stored.input

/-- One document of the `users` collection (database.py `create_user`).
`id` stands for the Mongo `_id`. -/
structure UserDoc where
  id : Nat
  name : String
  email : String
  password : BcryptHash
  created_at : Nat
  deriving DecidableEq, Repr

/-- One document of the `optimizations` collection (database.py
`save_optimization`).  The opaque `original_analysis` /
`optimized_analysis` payload dicts are carried by no claim and are
omitted; every other stored field is present. -/
structure OptDoc where
  id : Nat
  user_id : Nat
  name : String
  original_code : String
  optimized_code : String
  level : String
  changes : List String
  error : Option String
  starred : Bool
  created_at : Nat
  deriving DecidableEq, Repr

/-- An HTTP error response: `_error(message, status)` in app.py. -/
structure ErrResponse where
  error : String
  status : Nat
  deriving DecidableEq, Repr

/-- Result of pymongo `update_one`. -/
structure UpdateResult where
  store : List OptDoc
  matched_count : Nat
  modified_count : Nat
  deriving DecidableEq, Repr

/-- pymongo `delete_one`: remove the first document matching the filter;
`deleted_count` is 1 when a document matched, else 0. -/
def deleteOne (p : OptDoc → Bool) : List OptDoc → List OptDoc × Nat
  | [] => ([], 0)
  | d :: ds =>
    if p d then (ds, 1)
    else
      let r := deleteOne p ds
      (d :: r.1, r.2)

/-- pymongo `update_one` with a `$set`: rewrite the first document
matching the filter.  `modified_count` counts documents actually
changed: a `$set` writing the already-stored values reports
`modified_count = 0` although `matched_count = 1`. -/
def updateOne (p : OptDoc → Bool) (f : OptDoc → OptDoc) : List OptDoc → UpdateResult
  | [] => ⟨[], 0, 0⟩
  | d :: ds =>
    if p d then ⟨f d :: ds, 1, if f d = d then 0 else 1⟩
    else
      let r := updateOne p f ds
      ⟨d :: r.store, r.matched_count, r.modified_count⟩

-- ───────────────────────────────────────────────────────────────────────────
-- database.py — user operations
-- ───────────────────────────────────────────────────────────────────────────

/-- The normalization `email.lower().strip()` used by `create_user` and
`find_user_by_email` in database.py. -/
def normalizeEmail (email : String) : String :=
  pyStrip (pyLower email)

/-- database.py `create_user`: insert a user document with normalized
email.  The unique Mongo index on `email` (database.py line 37) is
embedded as the duplicate check: insertion raises `DuplicateKeyError`
(here `none`) when a stored user already carries the same email. -/
def create_user (users : List UserDoc) (name email : String)
    (hashed_password : BcryptHash) (now newId : Nat) :
    Option (List UserDoc × UserDoc) :=
  let doc : UserDoc :=
    { id := newId, name := name, email := normalizeEmail email,
      password := hashed_password, created_at := now }
  if users.any (fun u => u.email == doc.email) then none
  else some (users ++ [doc], doc)

/-- database.py `find_user_by_email`: full document (with stored hash)
for the normalized email, or `none`. -/
def find_user_by_email (users : List UserDoc) (email : String) : Option UserDoc :=
  users.find? (fun u => u.email == normalizeEmail email)

-- ───────────────────────────────────────────────────────────────────────────
-- database.py — optimization history operations
-- ───────────────────────────────────────────────────────────────────────────

/-- The filter `{_id: optimization_id, user_id: user_id}` used by the
ownership-checked session operations. -/
def matchesIdUser (optimization_id user_id : Nat) (d : OptDoc) : Bool :=
  d.id == optimization_id && d.user_id == user_id

/-- database.py `save_optimization`: build the document (auto-generated
name from the timestamp, `starred` false, fresh id) and insert it. -/
def save_optimization (store : List OptDoc) (user_id : Nat)
    (original_code optimized_code level : String) (changes : List String)
    (error : Option String) (now newId : Nat) : List OptDoc × OptDoc :=
  let doc : OptDoc :=
    { id := newId, user_id := user_id,
      name := "Session · " ++ toString now,
      original_code := original_code, optimized_code := optimized_code,
      level := level, changes := changes, error := error,
      starred := false, created_at := now }
  (store ++ [doc], doc)

/-- database.py `delete_optimization`: `delete_one` on the
id + owner filter; true iff something was deleted. -/
def delete_optimization (store : List OptDoc) (optimization_id user_id : Nat) :
    List OptDoc × Bool :=
  let r := deleteOne (matchesIdUser optimization_id user_id) store
  (r.1, decide (0 < r.2))

/-- database.py `rename_optimization`: `update_one` on the id + owner
filter setting `name`; true iff `modified_count > 0`. -/
def rename_optimization (store : List OptDoc) (optimization_id user_id : Nat)
    (new_name : String) : List OptDoc × Bool :=
  let r := updateOne (matchesIdUser optimization_id user_id)
    (fun d => {d with name := new_name}) store
  (r.store, decide (0 < r.modified_count))

/-- database.py `toggle_star`, first half: the `find_one` on the
id + owner filter and the computation `new_val = not starred`. -/
def toggleRead (store : List OptDoc) (optimization_id user_id : Nat) :
    Option Bool :=
  match store.find? (matchesIdUser optimization_id user_id) with
  | none => none
  | some doc => some (!doc.starred)

/-- database.py `toggle_star`, second half: the `update_one` writing the
precomputed `new_val`.  Faithful to the source, this write filters on
`_id` only (database.py line 227). -/
def toggleWrite (store : List OptDoc) (optimization_id : Nat) (new_val : Bool) :
    List OptDoc :=
  (updateOne (fun d => d.id == optimization_id)
    (fun d => {d with starred := new_val}) store).store

/-- database.py `toggle_star`: read the current `starred` flag, flip it,
write it back, return the new value; `none` when the id + owner filter
matches nothing. -/
def toggle_star (store : List OptDoc) (optimization_id user_id : Nat) :
    List OptDoc × Option Bool :=
  match store.find? (matchesIdUser optimization_id user_id) with
  | none => (store, none)
  | some doc =>
    let new_val := !doc.starred
    ((updateOne (fun d => d.id == optimization_id)
      (fun d => {d with starred := new_val}) store).store, some new_val)

/-- The `$group` accumulator row of `get_user_stats`; doubles as the
stats record returned to the Profile page. -/
structure GroupRow where
  total : Nat
  level1_count : Nat
  level2_count : Nat
  starred_count : Nat
  last_active : Option Nat
  deriving DecidableEq, Repr

/-- Merge of an optional running `$max` with a new value. -/
def optMax : Option Nat → Option Nat → Option Nat
  | none, b => b
  | some a, none => some a
  | some a, some b => some (max a b)

/-- One document passing through the `$group` stage of `get_user_stats`:
`$sum 1`, conditional `$sum`s on `level` and `starred`, running `$max`
on `created_at`. -/
def groupStep (r : GroupRow) (d : OptDoc) : GroupRow :=
  { total := r.total + 1,
    level1_count := r.level1_count + (if d.level == "level1" then 1 else 0),
    level2_count := r.level2_count + (if d.level == "level2" then 1 else 0),
    starred_count := r.starred_count + (if d.starred then 1 else 0),
    last_active := optMax r.last_active (some d.created_at) }

/-- database.py `get_user_stats`: `$match` on `user_id`, `$group` over
the matched documents; when the pipeline yields no row (no matched
documents) all counts are 0 and `last_active` is `None`. -/
def get_user_stats (store : List OptDoc) (user_id : Nat) : GroupRow :=
  let matched := store.filter (fun d => d.user_id == user_id)
  if matched.isEmpty then ⟨0, 0, 0, 0, none⟩
  else matched.foldl groupStep ⟨0, 0, 0, 0, none⟩

-- ───────────────────────────────────────────────────────────────────────────
-- app.py — auth routes
-- ───────────────────────────────────────────────────────────────────────────

/-- app.py `register`: trim/lowercase the inputs, validate, hash the
password, create the user (a duplicate-key failure surfaces as 409).
The fresh salt, timestamp and id stand for the effects drawn inside the
route.  Returns the users collection afterward and the response. -/
def register (users : List UserDoc) (body_name body_email body_password : String)
    (salt now newId : Nat) : List UserDoc × Except ErrResponse UserDoc :=
  let name := pyStrip body_name
  let email := pyLower (pyStrip body_email)
  let password := pyStrip body_password
  if name = "" ∨ email = "" ∨ password = "" then
    (users, .error ⟨"name, email and password are all required", 400⟩)
  else if password.length < 6 then
    (users, .error ⟨"Password must be at least 6 characters", 400⟩)
  else
    let hashed := hashpw password salt
    match create_user users name email hashed now newId with
    | none => (users, .error ⟨"An account with that email already exists", 409⟩)
    | some (users', user) => (users', .ok user)

/-- app.py `login`: trim/lowercase the inputs, validate, look the user
up by email, verify the password against the stored hash.  Both failure
modes return the same message and status. -/
def login (users : List UserDoc) (body_email body_password : String) :
    Except ErrResponse UserDoc :=
  let email := pyLower (pyStrip body_email)
  let password := pyStrip body_password
  if email = "" ∨ password = "" then
    .error ⟨"email and password are required", 400⟩
  else
    match find_user_by_email users email with
    | none => .error ⟨"Invalid email or password", 401⟩
    | some user_doc =>
      if !checkpw password user_doc.password then
        .error ⟨"Invalid email or password", 401⟩
      else .ok user_doc

-- ───────────────────────────────────────────────────────────────────────────
-- app.py — analyse route
-- ───────────────────────────────────────────────────────────────────────────

/-- The nested `l2` object of a pipeline result. -/
structure L2Result where
  changes_applied : List String
  deriving DecidableEq, Repr

/-- The fields of the `run_pipeline` result dict that app.py reads. -/
structure PipelineResult where
  passed_error_check : Bool
  l1_changes : List String
  l2 : Option L2Result
  original_code : String
  optimized_code : String
  error : Option String
  deriving DecidableEq, Repr

/-- app.py `VALID_LEVELS`. -/
def VALID_LEVELS : List String := ["none", "level1", "level2"]

/-- app.py `_LEVEL_ALIASES` (leading underscore dropped). -/
def LEVEL_ALIASES : List (String × String) :=
  [("LEVEL_1", "level1"), ("LEVEL_2", "level2"),
   ("level_1", "level1"), ("level_2", "level2")]

/-- Successful `analyse` response: the pipeline result dict with
`session_id` added, returned with status 200. -/
structure AnalyseOk where
  result : PipelineResult
  session_id : Option Nat
  status : Nat
  deriving DecidableEq, Repr

/-- app.py `analyse`: validate `code`, normalize the level through
`_LEVEL_ALIASES` before validating it, run the pipeline (a raising
pipeline is the `.error` case, surfacing as 500), and when the error
check passed try to auto-save — `insertOk` stands for the Mongo insert
either succeeding or raising, and a raising save is swallowed, leaving
`session_id` null.  Returns the optimizations collection afterward and
the response. -/
def analyse (pipeline : String → String → Except Unit PipelineResult)
    (store : List OptDoc) (insertOk : Bool) (user_id : Nat)
    (code optimization_level : String) (now newId : Nat) :
    List OptDoc × Except ErrResponse AnalyseOk :=
  if pyStrip code = "" then
    (store, .error ⟨"code field is required and must be a non-empty string", 400⟩)
  else
    let level := (LEVEL_ALIASES.lookup optimization_level).getD optimization_level
    if !(VALID_LEVELS.contains level) then
      (store, .error ⟨"optimization_level must be one of: [level1, level2, none]", 400⟩)
    else
      match pipeline code level with
      | .error _ =>
        (store, .error ⟨"Internal server error — check server logs for details.", 500⟩)
      | .ok result =>
        if result.passed_error_check then
          let changes :=
            if level == "level1" then result.l1_changes
            else if level == "level2" then
              (result.l2.map L2Result.changes_applied).getD []
            else []
          if insertOk then
            let saved := save_optimization store user_id result.original_code
              result.optimized_code level changes result.error now newId
            (saved.1, .ok ⟨result, some saved.2.id, 200⟩)
          else
            (store, .ok ⟨result, none, 200⟩)
        else
          (store, .ok ⟨result, none, 200⟩)

-- ───────────────────────────────────────────────────────────────────────────
-- app.py — history routes
-- ───────────────────────────────────────────────────────────────────────────

/-- app.py `delete_session` (DELETE /api/history/id). -/
def delete_session (store : List OptDoc) (user_id session_id : Nat) :
    List OptDoc × Except ErrResponse Bool :=
  let r := delete_optimization store session_id user_id
  if r.2 then (r.1, .ok true)
  else (r.1, .error ⟨"Session not found or not yours", 404⟩)

/-- app.py `rename_session` (PATCH /api/history/id/rename). -/
def rename_session (store : List OptDoc) (user_id session_id : Nat)
    (body_name : String) : List OptDoc × Except ErrResponse Bool :=
  let new_name := pyStrip body_name
  if new_name = "" then (store, .error ⟨"name is required", 400⟩)
  else
    let r := rename_optimization store session_id user_id new_name
    if r.2 then (r.1, .ok true)
    else (r.1, .error ⟨"Session not found or not yours", 404⟩)

/-- app.py `star_session` (PATCH /api/history/id/star). -/
def star_session (store : List OptDoc) (user_id session_id : Nat) :
    List OptDoc × Except ErrResponse Bool :=
  let r := toggle_star store session_id user_id
  match r.2 with
  | none => (r.1, .error ⟨"Session not found or not yours", 404⟩)
  | some new_val => (r.1, .ok new_val)

-- ───────────────────────────────────────────────────────────────────────────
-- Auxiliary definitions: spec-side combinators, decidability, and the
-- concrete documents and test doubles used by witnesses
-- ───────────────────────────────────────────────────────────────────────────

/-- Spec-side maximum: the greatest element of a list of timestamps, or
absent when the list is empty. -/
def maxCreated? : List Nat → Option Nat
  | [] => none
  | x :: xs => some (xs.foldl max x)

/-- The user document `register` inserts for the given inputs: the
record `create_user` builds from the trimmed name, the normalized email
and the hash of the trimmed password. -/
def regDoc (n e p : String) (salt now newId : Nat) : UserDoc :=
  { id := newId, name := pyStrip n,
    email := normalizeEmail (pyLower (pyStrip e)),
    password := hashpw (pyStrip p) salt, created_at := now }

instance {ε α : Type} [DecidableEq ε] [DecidableEq α] : DecidableEq (Except ε α) :=
  fun x y =>
    match x, y with
    | .error a, .error b => decidable_of_iff (a = b) (by simp)
    | .error _, .ok _ => isFalse (fun h => Except.noConfusion h)
    | .ok _, .error _ => isFalse (fun h => Except.noConfusion h)
    | .ok a, .ok b => decidable_of_iff (a = b) (by simp)

/-- Concrete session used by the witnesses below. -/
def sampleSession : OptDoc :=
  { id := 1, user_id := 7, name := "First run", original_code := "x",
    optimized_code := "y", level := "level1", changes := ["c"],
    error := none, starred := false, created_at := 5 }

/-- Concrete registered user for the witnesses below: normalized email
"ada@x.com", stored hash produced from password "secret1". -/
def sampleUser : UserDoc :=
  { id := 1, name := "Ada", email := "ada@x.com",
    password := ⟨"secret1", 0⟩, created_at := 0 }

/-- Concrete pipeline result and pipeline double for the witnesses. -/
def samplePR : PipelineResult :=
  { passed_error_check := true, l1_changes := ["c1"],
    l2 := some ⟨["c2"]⟩, original_code := "src", optimized_code := "opt",
    error := none }

/-- Pipeline double returning `samplePR` for every input. -/
def samplePipeline : String → String → Except Unit PipelineResult :=
  fun _ _ => .ok samplePR

-- ───────────────────────────────────────────────────────────────────────────
-- Helper lemmas about the embedded pymongo primitives
-- ───────────────────────────────────────────────────────────────────────────

theorem deleteOne_no_match (p : OptDoc → Bool) (l : List OptDoc)
    (h : ∀ d ∈ l, p d = false) : deleteOne p l = (l, 0) := by
  induction l with
  | nil => rfl
  | cons d ds ih =>
    have hd := h d (List.mem_cons_self d ds)
    simp [deleteOne, hd, ih (fun x hx => h x (List.mem_cons_of_mem d hx))]

theorem updateOne_no_match (p : OptDoc → Bool) (f : OptDoc → OptDoc)
    (l : List OptDoc) (h : ∀ d ∈ l, p d = false) :
    updateOne p f l = ⟨l, 0, 0⟩ := by
  induction l with
  | nil => rfl
  | cons d ds ih =>
    have hd := h d (List.mem_cons_self d ds)
    simp [updateOne, hd, ih (fun x hx => h x (List.mem_cons_of_mem d hx))]

theorem find?_no_match {α : Type} (p : α → Bool) (l : List α)
    (h : ∀ d ∈ l, p d = false) : l.find? p = none :=
  List.find?_eq_none.mpr (fun x hx => by simp [h x hx])

theorem updateOne_fixed (p : OptDoc → Bool) (f : OptDoc → OptDoc)
    (l : List OptDoc) (h : ∀ d ∈ l, p d = true → f d = d) :
    (updateOne p f l).store = l ∧ (updateOne p f l).modified_count = 0 := by
  induction l with
  | nil => exact ⟨rfl, rfl⟩
  | cons d ds ih =>
    by_cases hd : p d = true
    · have hf : f d = d := h d (List.mem_cons_self d ds) hd
      simp [updateOne, hd, hf]
    · have hrec := ih (fun x hx hp => h x (List.mem_cons_of_mem d hx) hp)
      simp [updateOne, hd, hrec.1, hrec.2]

theorem find?_first {α : Type} (p : α → Bool) (l1 l2 : List α) (s : α)
    (h1 : ∀ d ∈ l1, p d = false) (hs : p s = true) :
    (l1 ++ s :: l2).find? p = some s := by
  induction l1 with
  | nil => simp [List.find?, hs]
  | cons d ds ih =>
    have hd := h1 d (List.mem_cons_self d ds)
    have hrec := ih (fun x hx => h1 x (List.mem_cons_of_mem d hx))
    rw [List.cons_append, List.find?_cons_of_neg _ (by simp [hd]), hrec]

theorem updateOne_first (p : OptDoc → Bool) (f : OptDoc → OptDoc)
    (l1 l2 : List OptDoc) (s : OptDoc)
    (h1 : ∀ d ∈ l1, p d = false) (hs : p s = true) :
    updateOne p f (l1 ++ s :: l2) =
      ⟨l1 ++ f s :: l2, 1, if f s = s then 0 else 1⟩ := by
  induction l1 with
  | nil => simp [updateOne, hs]
  | cons d ds ih =>
    have hd := h1 d (List.mem_cons_self d ds)
    have hrec := ih (fun x hx => h1 x (List.mem_cons_of_mem d hx))
    simp [updateOne, hd, hrec]

theorem mem_first_decomp (s : OptDoc) (store : List OptDoc) (hmem : s ∈ store)
    (huniq : ∀ d ∈ store, d.id = s.id → d = s) :
    ∃ l1 l2, store = l1 ++ s :: l2 ∧ ∀ d ∈ l1, (d.id == s.id) = false := by
  induction store with
  | nil => cases hmem
  | cons d ds ih =>
    by_cases hds : d = s
    · exact ⟨[], ds, by simp [hds], by simp⟩
    · have hmem' : s ∈ ds := by
        rcases List.mem_cons.mp hmem with h | h
        · exact absurd h.symm hds
        · exact h
      obtain ⟨l1, l2, heq, hl1⟩ :=
        ih hmem' (fun x hx => huniq x (List.mem_cons_of_mem d hx))
      refine ⟨d :: l1, l2, by simp [heq], ?_⟩
      intro x hx
      rcases List.mem_cons.mp hx with h | h
      · subst h
        by_contra hb
        have hid : x.id = s.id := by simpa using hb
        exact hds (huniq x (List.mem_cons_self x ds) hid)
      · exact hl1 x h

-- ───────────────────────────────────────────────────────────────────────────
-- C1 — tenant isolation for delete / rename / toggle-star
-- ───────────────────────────────────────────────────────────────────────────

/-- C1: for distinct users A and B and a session owned by A, delete,
rename and toggle-star called with B's identity all fail —
`delete_optimization` and `rename_optimization` return false,
`toggle_star` returns none — the HTTP layer surfaces each as a 404
"Session not found or not yours", and the store (hence the session
record) is unchanged. -/
theorem tenant_isolation (store : List OptDoc) (s : OptDoc) (A B : Nat)
    (body_name : String) (hmem : s ∈ store) (hA : s.user_id = A) (hAB : A ≠ B)
    (huniq : ∀ d ∈ store, d.id = s.id → d = s)
    (hbody : ¬ pyStrip body_name = "") :
    delete_optimization store s.id B = (store, false) ∧
    rename_optimization store s.id B (pyStrip body_name) = (store, false) ∧
    toggle_star store s.id B = (store, none) ∧
    delete_session store B s.id =
      (store, .error ⟨"Session not found or not yours", 404⟩) ∧
    rename_session store B s.id body_name =
      (store, .error ⟨"Session not found or not yours", 404⟩) ∧
    star_session store B s.id =
      (store, .error ⟨"Session not found or not yours", 404⟩) := by
  have hfalse : ∀ d ∈ store, matchesIdUser s.id B d = false := by
    intro d hd
    by_cases hid : d.id = s.id
    · have hds : d = s := huniq d hd hid
      subst hds
      have : (d.user_id == B) = false := by
        rw [hA]; exact beq_eq_false_iff_ne.mpr hAB
      simp [matchesIdUser, this]
    · have : (d.id == s.id) = false := beq_eq_false_iff_ne.mpr hid
      simp [matchesIdUser, this]
  have hdel : delete_optimization store s.id B = (store, false) := by
    simp [delete_optimization, deleteOne_no_match _ _ hfalse]
  have hren : rename_optimization store s.id B (pyStrip body_name) = (store, false) := by
    simp [rename_optimization, updateOne_no_match _ _ _ hfalse]
  have htog : toggle_star store s.id B = (store, none) := by
    simp [toggle_star, find?_no_match _ _ hfalse]
  refine ⟨hdel, hren, htog, ?_, ?_, ?_⟩
  · simp [delete_session, hdel]
  · simp [rename_session, hbody, hren]
  · simp [star_session, htog]

/-- C1 witness: user 8 acting on user 7's session. -/
theorem tenant_isolation_witness :
    delete_optimization [sampleSession] sampleSession.id 8 = ([sampleSession], false) ∧
    rename_optimization [sampleSession] sampleSession.id 8 (pyStrip "New name") =
      ([sampleSession], false) ∧
    toggle_star [sampleSession] sampleSession.id 8 = ([sampleSession], none) ∧
    delete_session [sampleSession] 8 sampleSession.id =
      ([sampleSession], .error ⟨"Session not found or not yours", 404⟩) ∧
    rename_session [sampleSession] 8 sampleSession.id "New name" =
      ([sampleSession], .error ⟨"Session not found or not yours", 404⟩) ∧
    star_session [sampleSession] 8 sampleSession.id =
      ([sampleSession], .error ⟨"Session not found or not yours", 404⟩) :=
  tenant_isolation [sampleSession] sampleSession 7 8 "New name"
    (by decide) rfl (by decide) (by decide) (by decide)

-- ───────────────────────────────────────────────────────────────────────────
-- C4 — toggling twice restores the original flag
-- ───────────────────────────────────────────────────────────────────────────

theorem toggle_star_decomp (l1 l2 : List OptDoc) (s : OptDoc) (uid : Nat)
    (huid : s.user_id = uid) (h1 : ∀ d ∈ l1, (d.id == s.id) = false) :
    toggle_star (l1 ++ s :: l2) s.id uid =
      (l1 ++ {s with starred := !s.starred} :: l2, some (!s.starred)) := by
  have hfind : (l1 ++ s :: l2).find? (matchesIdUser s.id uid) = some s :=
    find?_first _ _ _ _ (fun d hd => by simp [matchesIdUser, h1 d hd])
      (by simp [matchesIdUser, huid])
  have hupd := updateOne_first (fun d => d.id == s.id)
      (fun d => {d with starred := !s.starred}) l1 l2 s h1 (by simp)
  simp only [toggle_star, hfind, hupd]

/-- C4: for a session owned by the caller, `toggle_star` returns the
flipped flag; toggling again returns the original flag and restores the
store exactly — so a third call behaves like the first again. -/
theorem toggle_star_double (store : List OptDoc) (s : OptDoc)
    (hmem : s ∈ store) (huniq : ∀ d ∈ store, d.id = s.id → d = s) :
    ∃ store1,
      toggle_star store s.id s.user_id = (store1, some (!s.starred)) ∧
      toggle_star store1 s.id s.user_id = (store, some s.starred) := by
  obtain ⟨l1, l2, heq, hl1⟩ := mem_first_decomp s store hmem huniq
  subst heq
  refine ⟨l1 ++ {s with starred := !s.starred} :: l2, ?_, ?_⟩
  · exact toggle_star_decomp l1 l2 s s.user_id rfl hl1
  · have h2 := toggle_star_decomp l1 l2 ({s with starred := !s.starred})
      s.user_id rfl (fun d hd => hl1 d hd)
    simpa [Bool.not_not] using h2

/-- C4 witness: double toggle on a concrete singleton store. -/
theorem toggle_star_double_witness :
    ∃ store1,
      toggle_star [sampleSession] sampleSession.id sampleSession.user_id =
        (store1, some true) ∧
      toggle_star store1 sampleSession.id sampleSession.user_id =
        ([sampleSession], some false) :=
  toggle_star_double [sampleSession] sampleSession (by decide) (by decide)

-- ───────────────────────────────────────────────────────────────────────────
-- C10 — renaming to the current name reports 404 although the record
-- exists and is owned by the caller
-- ───────────────────────────────────────────────────────────────────────────

/-- C10: when the trimmed new name equals the stored name of an owned,
existing session, Mongo reports `modified_count = 0`, so
`rename_optimization` returns false and the HTTP layer answers 404
"Session not found or not yours". -/
theorem rename_same_name_404 (store : List OptDoc) (s : OptDoc) (body_name : String)
    (hmem : s ∈ store) (huniq : ∀ d ∈ store, d.id = s.id → d = s)
    (hname : pyStrip body_name = s.name) (hnonempty : ¬ s.name = "") :
    rename_optimization store s.id s.user_id (pyStrip body_name) = (store, false) ∧
    rename_session store s.user_id s.id body_name =
      (store, .error ⟨"Session not found or not yours", 404⟩) := by
  have hfix : ∀ d ∈ store, matchesIdUser s.id s.user_id d = true →
      ({d with name := pyStrip body_name} : OptDoc) = d := by
    intro d hd hp
    simp only [matchesIdUser, Bool.and_eq_true, beq_iff_eq] at hp
    have hds : d = s := huniq d hd hp.1
    subst hds
    rw [hname]
  have hr := updateOne_fixed _ _ store hfix
  have hren : rename_optimization store s.id s.user_id (pyStrip body_name) =
      (store, false) := by
    simp [rename_optimization, hr.1, hr.2]
  refine ⟨hren, ?_⟩
  have hne : ¬ pyStrip body_name = "" := by rw [hname]; exact hnonempty
  simp [rename_session, hne, hren]

/-- C10 witness: rename to the current name on a concrete store. -/
theorem rename_same_name_404_witness :
    rename_optimization [sampleSession] sampleSession.id sampleSession.user_id
      (pyStrip " First run ") = ([sampleSession], false) ∧
    rename_session [sampleSession] sampleSession.user_id sampleSession.id
      " First run " =
      ([sampleSession], .error ⟨"Session not found or not yours", 404⟩) :=
  rename_same_name_404 [sampleSession] sampleSession " First run "
    (by decide) (by decide) (by decide) (by decide)

-- ───────────────────────────────────────────────────────────────────────────
-- C2 — aggregate stats correctness
-- ───────────────────────────────────────────────────────────────────────────

theorem optMax_assoc (a b c : Option Nat) :
    optMax (optMax a b) c = optMax a (optMax b c) := by
  cases a <;> cases b <;> cases c <;> simp [optMax, Nat.max_assoc]

theorem foldl_max_cons (x y : Nat) (l : List Nat) :
    l.foldl max (max x y) = max x (l.foldl max y) := by
  induction l generalizing y with
  | nil => rfl
  | cons z zs ih => simp only [List.foldl_cons, Nat.max_assoc, ih]

theorem maxCreated?_cons (x : Nat) (xs : List Nat) :
    maxCreated? (x :: xs) = optMax (some x) (maxCreated? xs) := by
  cases xs with
  | nil => rfl
  | cons y ys => simp [maxCreated?, optMax, foldl_max_cons]

theorem foldl_groupStep_spec (l : List OptDoc) (r : GroupRow) :
    (l.foldl groupStep r).total = r.total + l.length ∧
    (l.foldl groupStep r).level1_count =
      r.level1_count + (l.filter (fun d => d.level == "level1")).length ∧
    (l.foldl groupStep r).level2_count =
      r.level2_count + (l.filter (fun d => d.level == "level2")).length ∧
    (l.foldl groupStep r).starred_count =
      r.starred_count + (l.filter (fun d => d.starred)).length ∧
    (l.foldl groupStep r).last_active =
      optMax r.last_active (maxCreated? (l.map OptDoc.created_at)) := by
  induction l generalizing r with
  | nil =>
    refine ⟨by simp, by simp, by simp, by simp, ?_⟩
    cases hr : r.last_active <;> simp [optMax, maxCreated?, hr]
  | cons d ds ih =>
    obtain ⟨h1, h2, h3, h4, h5⟩ := ih (groupStep r d)
    refine ⟨?_, ?_, ?_, ?_, ?_⟩
    · rw [List.foldl_cons, h1]
      simp only [groupStep, List.length_cons]
      omega
    · rw [List.foldl_cons, h2]
      simp only [groupStep, List.filter_cons]
      by_cases hp : (d.level == "level1") = true <;> simp [hp] <;> omega
    · rw [List.foldl_cons, h3]
      simp only [groupStep, List.filter_cons]
      by_cases hp : (d.level == "level2") = true <;> simp [hp] <;> omega
    · rw [List.foldl_cons, h4]
      simp only [groupStep, List.filter_cons]
      by_cases hp : d.starred = true <;> simp [hp] <;> omega
    · rw [List.foldl_cons, h5, List.map_cons, maxCreated?_cons, ← optMax_assoc]
      simp [groupStep]

/-- C2: `get_user_stats` returns total = number of owned records,
level1/level2 counts = number of owned records at that level,
starredCount = number of owned starred records, and lastActive = the
maximum `created_at` over the owned records, absent — with all counts
0 and no error — when the owner has no records. -/
theorem get_user_stats_correct (store : List OptDoc) (user_id : Nat) :
    (get_user_stats store user_id).total =
      (store.filter (fun d => d.user_id == user_id)).length ∧
    (get_user_stats store user_id).level1_count =
      ((store.filter (fun d => d.user_id == user_id)).filter
        (fun d => d.level == "level1")).length ∧
    (get_user_stats store user_id).level2_count =
      ((store.filter (fun d => d.user_id == user_id)).filter
        (fun d => d.level == "level2")).length ∧
    (get_user_stats store user_id).starred_count =
      ((store.filter (fun d => d.user_id == user_id)).filter
        (fun d => d.starred)).length ∧
    (get_user_stats store user_id).last_active =
      maxCreated? ((store.filter (fun d => d.user_id == user_id)).map
        OptDoc.created_at) := by
  by_cases he : (store.filter (fun d => d.user_id == user_id)).isEmpty = true
  · have hnil : store.filter (fun d => d.user_id == user_id) = [] := by
      simpa using he
    simp [get_user_stats, hnil, maxCreated?]
  · obtain ⟨h1, h2, h3, h4, h5⟩ :=
      foldl_groupStep_spec (store.filter (fun d => d.user_id == user_id))
        ⟨0, 0, 0, 0, none⟩
    simp [get_user_stats, he, h1, h2, h3, h4, h5, optMax]

-- ───────────────────────────────────────────────────────────────────────────
-- C9 — toggle_star is a plain read-then-write, not linearizable
-- ───────────────────────────────────────────────────────────────────────────

/-- C9 (refuting the claimed serialization, confirming the spec's design
note that the plain read-then-write is an open correctness gap):
`toggle_star` is exactly the unsynchronized composition of its
`find_one` read half and its `update_one` write half, and in the
interleaving where two concurrent toggles on the same record both
execute the read before either write, both toggles return `true` and
the record ends starred — one net flip — whereas the serialized
executions return `true` then `false` and restore the flag. -/
theorem toggle_star_race :
    (∀ (store : List OptDoc) (oid uid : Nat),
      toggle_star store oid uid =
        match toggleRead store oid uid with
        | none => (store, none)
        | some v => (toggleWrite store oid v, some v)) ∧
    toggleRead [sampleSession] 1 7 = some true ∧
    toggleWrite (toggleWrite [sampleSession] 1 true) 1 true =
      [{sampleSession with starred := true}] ∧
    (toggle_star [sampleSession] 1 7).2 = some true ∧
    toggle_star (toggle_star [sampleSession] 1 7).1 1 7 =
      ([sampleSession], some false) := by
  refine ⟨?_, by decide, by decide, by decide, by decide⟩
  intro store oid uid
  cases hf : store.find? (matchesIdUser oid uid) <;>
    simp [toggle_star, toggleRead, toggleWrite, hf]

-- ───────────────────────────────────────────────────────────────────────────
-- C5 — login failures are indistinguishable
-- ───────────────────────────────────────────────────────────────────────────

/-- C5: a failed login — whether no user exists under the normalized
email or password verification fails against the stored hash — returns
the identical `InvalidCredentials` response, message "Invalid email or
password" with status 401, in both cases. -/
theorem login_indistinguishable (users : List UserDoc)
    (body_email body_password : String)
    (he : ¬ pyLower (pyStrip body_email) = "")
    (hp : ¬ pyStrip body_password = "") :
    (find_user_by_email users (pyLower (pyStrip body_email)) = none →
      login users body_email body_password =
        .error ⟨"Invalid email or password", 401⟩) ∧
    (∀ u, find_user_by_email users (pyLower (pyStrip body_email)) = some u →
      checkpw (pyStrip body_password) u.password = false →
      login users body_email body_password =
        .error ⟨"Invalid email or password", 401⟩) := by
  constructor
  · intro hnone
    simp [login, he, hp, hnone]
  · intro u hu hc
    simp [login, he, hp, hu, hc]

/-- C5 witness: unknown email and wrong password both produce the same
401 response. -/
theorem login_indistinguishable_witness :
    login [sampleUser] "bob@x.com" "secret1" =
      .error ⟨"Invalid email or password", 401⟩ ∧
    login [sampleUser] "ada@x.com" "wrongpass" =
      .error ⟨"Invalid email or password", 401⟩ :=
  ⟨(login_indistinguishable [sampleUser] "bob@x.com" "secret1"
      (by decide) (by decide)).1 (by decide),
   (login_indistinguishable [sampleUser] "ada@x.com" "wrongpass"
      (by decide) (by decide)).2 sampleUser (by decide) (by decide)⟩

-- ───────────────────────────────────────────────────────────────────────────
-- C7 — best-effort persistence in analyse
-- ───────────────────────────────────────────────────────────────────────────

/-- C7: when the pipeline result passes the error check but the session
save fails, the failure is swallowed: analyse still answers 200 with
the pipeline result, `session_id` is null, and the store is unchanged. -/
theorem analyse_save_failure (pipeline : String → String → Except Unit PipelineResult)
    (store : List OptDoc) (user_id : Nat) (code optimization_level : String)
    (now newId : Nat) (r : PipelineResult)
    (hcode : ¬ pyStrip code = "")
    (hlevel : VALID_LEVELS.contains
      ((LEVEL_ALIASES.lookup optimization_level).getD optimization_level) = true)
    (hpipe : pipeline code
      ((LEVEL_ALIASES.lookup optimization_level).getD optimization_level) = .ok r)
    (hpassed : r.passed_error_check = true) :
    analyse pipeline store false user_id code optimization_level now newId =
      (store, .ok ⟨r, none, 200⟩) := by
  have hl : (LEVEL_ALIASES.lookup optimization_level).getD optimization_level ∈
      VALID_LEVELS := by simpa using hlevel
  simp [analyse, hcode, hl, hpipe, hpassed]

/-- C7 witness: failing save on a concrete passing analysis. -/
theorem analyse_save_failure_witness :
    analyse samplePipeline [] false 7 "print(1)" "level1" 5 42 =
      ([], .ok ⟨samplePR, none, 200⟩) :=
  analyse_save_failure samplePipeline [] 7 "print(1)" "level1" 5 42 samplePR
    (by decide) (by decide) rfl rfl

-- ───────────────────────────────────────────────────────────────────────────
-- Registration helper lemmas
-- ───────────────────────────────────────────────────────────────────────────

theorem pyStrip_ne_empty_of_len (p : String) (hp : ¬ (pyStrip p).length < 6) :
    ¬ pyStrip p = "" := by
  intro h
  rw [h] at hp
  exact hp (by decide)

theorem register_ok_intro (users : List UserDoc) (n e p : String)
    (salt now newId : Nat)
    (hn : ¬ pyStrip n = "") (he : ¬ pyLower (pyStrip e) = "")
    (hp : ¬ (pyStrip p).length < 6)
    (hdup : users.any
      (fun x => x.email == normalizeEmail (pyLower (pyStrip e))) = false) :
    register users n e p salt now newId =
      (users ++ [regDoc n e p salt now newId],
        .ok (regDoc n e p salt now newId)) := by
  have hpne := pyStrip_ne_empty_of_len p hp
  simp [register, create_user, regDoc, hn, he, hp, hpne, hdup]

theorem register_dup_intro (users : List UserDoc) (n e p : String)
    (salt now newId : Nat)
    (hn : ¬ pyStrip n = "") (he : ¬ pyLower (pyStrip e) = "")
    (hp : ¬ (pyStrip p).length < 6)
    (hdup : users.any
      (fun x => x.email == normalizeEmail (pyLower (pyStrip e))) = true) :
    register users n e p salt now newId =
      (users, .error ⟨"An account with that email already exists", 409⟩) := by
  have hpne := pyStrip_ne_empty_of_len p hp
  simp [register, create_user, hn, he, hp, hpne, hdup]

theorem register_ok_elim (users : List UserDoc) (n e p : String)
    (salt now newId : Nat) (users' : List UserDoc) (u : UserDoc)
    (h : register users n e p salt now newId = (users', .ok u)) :
    users' = users ++ [u] ∧ u = regDoc n e p salt now newId ∧
    ¬ pyLower (pyStrip e) = "" ∧
    users.any (fun x => x.email == normalizeEmail (pyLower (pyStrip e))) = false := by
  simp only [register] at h
  by_cases hc1 : pyStrip n = "" ∨ pyLower (pyStrip e) = "" ∨ pyStrip p = ""
  · rw [if_pos hc1] at h
    simp at h
  · rw [if_neg hc1] at h
    by_cases hc2 : (pyStrip p).length < 6
    · rw [if_pos hc2] at h
      simp at h
    · rw [if_neg hc2] at h
      by_cases hd : users.any
          (fun x => x.email == normalizeEmail (pyLower (pyStrip e))) = true
      · have hnone : create_user users (pyStrip n) (pyLower (pyStrip e))
            (hashpw (pyStrip p) salt) now newId = none := by
          simp [create_user, hd]
        rw [hnone] at h
        simp at h
      · have hfalse : users.any
            (fun x => x.email == normalizeEmail (pyLower (pyStrip e))) = false := by
          simpa using hd
        have hsome : create_user users (pyStrip n) (pyLower (pyStrip e))
            (hashpw (pyStrip p) salt) now newId =
            some (users ++ [regDoc n e p salt now newId],
              regDoc n e p salt now newId) := by
          simp [create_user, regDoc, hfalse]
        rw [hsome] at h
        simp only [Prod.mk.injEq, Except.ok.injEq] at h
        refine ⟨?_, h.2.symm, fun hEe => hc1 (Or.inr (Or.inl hEe)), hfalse⟩
        rw [← h.1, h.2]

-- ───────────────────────────────────────────────────────────────────────────
-- C6 — normalized-email uniqueness across registrations
-- ───────────────────────────────────────────────────────────────────────────

/-- C6: after a successful registration, a second otherwise-valid
registration whose email is any case or surrounding-whitespace variant
of the first (same trimmed, lowercased form) fails with the 409
DuplicateEmail response, and the users collection is unchanged — no
second user is created. -/
theorem email_uniqueness (users users1 : List UserDoc) (u1 : UserDoc)
    (n1 e1 p1 n2 e2 p2 : String) (s1 t1 i1 s2 t2 i2 : Nat)
    (hreg : register users n1 e1 p1 s1 t1 i1 = (users1, .ok u1))
    (hvar : pyLower (pyStrip e2) = pyLower (pyStrip e1))
    (hn2 : ¬ pyStrip n2 = "") (hp2 : ¬ (pyStrip p2).length < 6) :
    register users1 n2 e2 p2 s2 t2 i2 =
      (users1, .error ⟨"An account with that email already exists", 409⟩) := by
  obtain ⟨husers, hu, he1, _⟩ := register_ok_elim _ _ _ _ _ _ _ _ _ hreg
  have he2 : ¬ pyLower (pyStrip e2) = "" := by rw [hvar]; exact he1
  have hdup : users1.any
      (fun x => x.email == normalizeEmail (pyLower (pyStrip e2))) = true := by
    rw [husers, hvar]
    refine List.any_eq_true.mpr ⟨u1, List.mem_append_right users (by simp), ?_⟩
    rw [hu]
    simp [regDoc]
  exact register_dup_intro users1 n2 e2 p2 s2 t2 i2 hn2 he2 hp2 hdup

/-- C6 witness: registering "ada@x.com" then " ADA@X.COM" (case and
whitespace variant). -/
theorem email_uniqueness_witness :
    register [regDoc "Ada" "ada@x.com" "secret1" 0 0 1]
      "Bob" " ADA@X.COM" "hunter22" 1 2 3 =
      ([regDoc "Ada" "ada@x.com" "secret1" 0 0 1],
        .error ⟨"An account with that email already exists", 409⟩) :=
  email_uniqueness [] [regDoc "Ada" "ada@x.com" "secret1" 0 0 1]
    (regDoc "Ada" "ada@x.com" "secret1" 0 0 1)
    "Ada" "ada@x.com" "secret1" "Bob" " ADA@X.COM" "hunter22" 0 0 1 1 2 3
    (by decide) (by decide) (by decide) (by decide)

-- ───────────────────────────────────────────────────────────────────────────
-- C3 — credential round-trip
-- ───────────────────────────────────────────────────────────────────────────

/-- C3 counterexample: the password " secret1" is accepted by
registration (it is stripped to "secret1" before hashing), yet login
with the different string "secret1" verifies successfully against the
stored hash — refuting that verification fails for every submitted
password different from the registered one. -/
theorem credential_roundtrip_cex :
    ¬ (" secret1" : String) = "secret1" ∧
    (register [] "Ada" "ada@x.com" " secret1" 0 0 1).2 =
      .ok (regDoc "Ada" "ada@x.com" " secret1" 0 0 1) ∧
    login (register [] "Ada" "ada@x.com" " secret1" 0 0 1).1
        "ada@x.com" "secret1" =
      .ok (regDoc "Ada" "ada@x.com" " secret1" 0 0 1) :=
  ⟨by decide, by decide, by decide⟩

/-- C3 amended: for every password accepted by registration, login with
the registered password succeeds, and login with a submitted password Q
verifies iff the trimmed Q equals the trimmed registered password —
both routes strip the password before hashing/checking, so exactly the
surrounding-whitespace variants of the registered password are also
accepted, and every other password is rejected (under the
spec-modelled exact-match credential service). -/
theorem credential_roundtrip_amended (users : List UserDoc) (n e P Q : String)
    (salt now newId : Nat)
    (hn : ¬ pyStrip n = "") (he : ¬ pyLower (pyStrip e) = "")
    (hp : ¬ (pyStrip P).length < 6)
    (hdup : users.any
      (fun x => x.email == normalizeEmail (pyLower (pyStrip e))) = false)
    (hQ : ¬ pyStrip Q = "") :
    login (register users n e P salt now newId).1 e P =
      .ok (regDoc n e P salt now newId) ∧
    (login (register users n e P salt now newId).1 e Q =
        .ok (regDoc n e P salt now newId) ↔ pyStrip Q = pyStrip P) := by
  have hPne := pyStrip_ne_empty_of_len P hp
  have hstore := register_ok_intro users n e P salt now newId hn he hp hdup
  have hfind : find_user_by_email (users ++ [regDoc n e P salt now newId])
      (pyLower (pyStrip e)) = some (regDoc n e P salt now newId) := by
    unfold find_user_by_email
    refine find?_first _ users [] _ ?_ (by simp [regDoc])
    intro x hx
    have := List.any_eq_false.mp hdup x hx
    simpa using this
  rw [hstore]
  have hguard : ¬ (pyLower (pyStrip e) = "" ∨ pyStrip P = "") := by
    intro h
    rcases h with h | h
    · exact he h
    · exact hPne h
  have hguardQ : ¬ (pyLower (pyStrip e) = "" ∨ pyStrip Q = "") := by
    intro h
    rcases h with h | h
    · exact he h
    · exact hQ h
  constructor
  · simp only [login]
    rw [if_neg hguard, hfind]
    simp [checkpw, regDoc, hashpw]
  · by_cases heq : pyStrip Q = pyStrip P
    · simp only [login]
      rw [if_neg hguardQ, hfind]
      simp [checkpw, regDoc, hashpw, heq]
    · simp only [login]
      rw [if_neg hguardQ, hfind]
      simp [checkpw, regDoc, hashpw, heq]

/-- C3 amended witness: register with "secret1"; login succeeds with
"secret1" and the wrong password "hunter2" verifies iff its trimmed
form equals "secret1" (it does not). -/
theorem credential_roundtrip_amended_witness :
    login (register [] "Ada" "ada@x.com" "secret1" 0 0 1).1 "ada@x.com" "secret1" =
      .ok (regDoc "Ada" "ada@x.com" "secret1" 0 0 1) ∧
    (login (register [] "Ada" "ada@x.com" "secret1" 0 0 1).1 "ada@x.com" "hunter2" =
        .ok (regDoc "Ada" "ada@x.com" "secret1" 0 0 1) ↔
      pyStrip "hunter2" = pyStrip "secret1") :=
  credential_roundtrip_amended [] "Ada" "ada@x.com" "secret1" "hunter2" 0 0 1
    (by decide) (by decide) (by decide) (by decide) (by decide)

-- ───────────────────────────────────────────────────────────────────────────
-- C8 — level alias normalization in analyse
-- ───────────────────────────────────────────────────────────────────────────

theorem lookup_alias_cases (al canon : String)
    (h : LEVEL_ALIASES.lookup al = some canon) :
    (al = "LEVEL_1" ∧ canon = "level1") ∨ (al = "LEVEL_2" ∧ canon = "level2") ∨
    (al = "level_1" ∧ canon = "level1") ∨ (al = "level_2" ∧ canon = "level2") := by
  by_cases h1 : al = "LEVEL_1"
  · subst h1
    simp [LEVEL_ALIASES, List.lookup] at h
    exact Or.inl ⟨rfl, h.symm⟩
  by_cases h2 : al = "LEVEL_2"
  · subst h2
    simp [LEVEL_ALIASES, List.lookup] at h
    exact Or.inr (Or.inl ⟨rfl, h.symm⟩)
  by_cases h3 : al = "level_1"
  · subst h3
    simp [LEVEL_ALIASES, List.lookup] at h
    exact Or.inr (Or.inr (Or.inl ⟨rfl, h.symm⟩))
  by_cases h4 : al = "level_2"
  · subst h4
    simp [LEVEL_ALIASES, List.lookup] at h
    exact Or.inr (Or.inr (Or.inr ⟨rfl, h.symm⟩))
  exfalso
  have b1 : (al == "LEVEL_1") = false := beq_eq_false_iff_ne.mpr h1
  have b2 : (al == "LEVEL_2") = false := beq_eq_false_iff_ne.mpr h2
  have b3 : (al == "level_1") = false := beq_eq_false_iff_ne.mpr h3
  have b4 : (al == "level_2") = false := beq_eq_false_iff_ne.mpr h4
  simp [LEVEL_ALIASES, List.lookup, b1, b2, b3, b4] at h

/-- C8: submitting a recognized alias (LEVEL_1, LEVEL_2, level_1,
level_2) to analyse is equivalent to submitting its canonical level for
every pipeline and store; an unrecognized, non-canonical level fails
with the 400 validation error; and an aliased passing run persists a
session whose `level` field holds the canonical value with the change
list extracted for the canonical level. -/
theorem level_alias_normalization :
    (∀ (al canon : String), LEVEL_ALIASES.lookup al = some canon →
      ∀ (pipeline : String → String → Except Unit PipelineResult)
        (store : List OptDoc) (insertOk : Bool) (user_id : Nat)
        (code : String) (now newId : Nat),
        analyse pipeline store insertOk user_id code al now newId =
          analyse pipeline store insertOk user_id code canon now newId) ∧
    (∀ (lvl : String), LEVEL_ALIASES.lookup lvl = none →
      VALID_LEVELS.contains lvl = false →
      ∀ (pipeline : String → String → Except Unit PipelineResult)
        (store : List OptDoc) (insertOk : Bool) (user_id : Nat)
        (code : String) (now newId : Nat), ¬ pyStrip code = "" →
        analyse pipeline store insertOk user_id code lvl now newId =
          (store, .error
            ⟨"optimization_level must be one of: [level1, level2, none]", 400⟩)) ∧
    (∀ (al canon : String), LEVEL_ALIASES.lookup al = some canon →
      ∀ (pipeline : String → String → Except Unit PipelineResult)
        (store : List OptDoc) (user_id : Nat) (code : String)
        (now newId : Nat) (r : PipelineResult), ¬ pyStrip code = "" →
        pipeline code canon = .ok r → r.passed_error_check = true →
        analyse pipeline store true user_id code al now newId =
          (store ++ [{ id := newId, user_id := user_id,
                       name := "Session · " ++ toString now,
                       original_code := r.original_code,
                       optimized_code := r.optimized_code,
                       level := canon,
                       changes := if canon == "level1" then r.l1_changes
                         else (r.l2.map L2Result.changes_applied).getD [],
                       error := r.error, starred := false,
                       created_at := now }],
            .ok ⟨r, some newId, 200⟩)) := by
  refine ⟨?_, ?_, ?_⟩
  · intro al canon h pipeline store insertOk user_id code now newId
    rcases lookup_alias_cases al canon h with ⟨ha, hc⟩ | ⟨ha, hc⟩ | ⟨ha, hc⟩ | ⟨ha, hc⟩ <;>
      subst ha <;> subst hc <;> rfl
  · intro lvl hnone hnotvalid pipeline store insertOk user_id code now newId hcode
    have hnm : lvl ∉ VALID_LEVELS := by simpa using hnotvalid
    simp [analyse, hcode, hnone, hnm]
  · intro al canon h pipeline store user_id code now newId r hcode hpipe hpassed
    rcases lookup_alias_cases al canon h with ⟨ha, hc⟩ | ⟨ha, hc⟩ | ⟨ha, hc⟩ | ⟨ha, hc⟩
    · subst ha
      subst hc
      have hl : (LEVEL_ALIASES.lookup "LEVEL_1").getD "LEVEL_1" = "level1" := by decide
      have hv : ("level1" : String) ∈ VALID_LEVELS := by decide
      simp [analyse, save_optimization, hl, hv, hcode, hpipe, hpassed]
    · subst ha
      subst hc
      have hl : (LEVEL_ALIASES.lookup "LEVEL_2").getD "LEVEL_2" = "level2" := by decide
      have hv : ("level2" : String) ∈ VALID_LEVELS := by decide
      simp [analyse, save_optimization, hl, hv, hcode, hpipe, hpassed]
    · subst ha
      subst hc
      have hl : (LEVEL_ALIASES.lookup "level_1").getD "level_1" = "level1" := by decide
      have hv : ("level1" : String) ∈ VALID_LEVELS := by decide
      simp [analyse, save_optimization, hl, hv, hcode, hpipe, hpassed]
    · subst ha
      subst hc
      have hl : (LEVEL_ALIASES.lookup "level_2").getD "level_2" = "level2" := by decide
      have hv : ("level2" : String) ∈ VALID_LEVELS := by decide
      simp [analyse, save_optimization, hl, hv, hcode, hpipe, hpassed]

/-- C8 witness: LEVEL_1 behaves as level1 end to end, and a bogus level
is rejected with 400. -/
theorem level_alias_normalization_witness :
    (analyse samplePipeline [] true 7 "x=1" "LEVEL_1" 5 42 =
      analyse samplePipeline [] true 7 "x=1" "level1" 5 42) ∧
    (analyse samplePipeline [] true 7 "x=1" "bogus" 5 42 =
      ([], .error
        ⟨"optimization_level must be one of: [level1, level2, none]", 400⟩)) ∧
    (analyse samplePipeline [] true 7 "x=1" "LEVEL_1" 5 42 =
      ([{ id := 42, user_id := 7, name := "Session · " ++ toString 5,
          original_code := "src", optimized_code := "opt", level := "level1",
          changes := ["c1"], error := none, starred := false,
          created_at := 5 }],
        .ok ⟨samplePR, some 42, 200⟩)) := by
  refine ⟨?_, ?_, ?_⟩
  · exact level_alias_normalization.1 "LEVEL_1" "level1" (by decide)
      samplePipeline [] true 7 "x=1" 5 42
  · exact level_alias_normalization.2.1 "bogus" (by decide) (by decide)
      samplePipeline [] true 7 "x=1" 5 42 (by decide)
  · have h := level_alias_normalization.2.2 "LEVEL_1" "level1" (by decide)
      samplePipeline [] 7 "x=1" 5 42 samplePR (by decide) rfl rfl
    simpa [samplePR] using h
